import Mathlib

/-!
Verification development for the portfolio-agent repository.

The development shallowly embeds the Python modules `agent_tools.py`,
`portfolio_agent.py` and `fastapi_app.py`:

* JSON values are the inductive `JVal`; Python `json.dumps(..., indent=2,
  ensure_ascii=False)` is the executable `dumps`.
* Fallible Python code is modelled in `Except PyError`; an exception that
  escapes a function is an `Except.error`.
* The data file backing `PortfolioTools` is a `FileState` (missing, corrupt,
  or successfully parsed), read fresh on every tool call, as in the source.
* The LLM backend is an explicit parameter: a function from the call index,
  the outgoing transcript and the tool catalog to a canonical response.
  `runAsk` instruments each backend call into a `CallRec` log so that the
  orchestration-loop invariants can be stated over the calls actually made.
-/

/-- JSON values (and, by extension, the Python values flowing through the
agent: `null` doubles as Python `None`, `str` as Python `str`, and so on). -/
inductive JVal where
  | null : JVal
  | bool : Bool → JVal
  | num : Int → JVal
  | str : String → JVal
  | arr : List JVal → JVal
  | obj : List (String × JVal) → JVal

/-- Python exceptions that the embedded code can raise.  The payload is the
text `str(e)` would render; the exact CPython wording of type errors is not
reproduced (no claim depends on it). -/
inductive PyError where
  | jsonDecode : String → PyError
  | typeError : String → PyError
  | valueError : String → PyError
  | attributeError : String → PyError

/-- The text `str(e)` used when `_execute_tool` formats a caught exception. -/
def pyErrStr : PyError → String
  | .jsonDecode s => s
  | .typeError s => s
  | .valueError s => s
  | .attributeError s => s

/-- JSON string escaping as performed by `json.dumps` (with
`ensure_ascii=False`, so non-ASCII characters pass through unchanged). -/
def escChar (c : Char) : String :=
  if c = '"' then "\\\""
  else if c = '\\' then "\\\\"
  else if c = '\n' then "\\n"
  else if c = '\t' then "\\t"
  else if c = '\r' then "\\r"
  else String.singleton c

def escapeString (s : String) : String :=
  s.data.foldl (fun acc c => acc ++ escChar c) ""

def indentSpaces (n : Nat) : String :=
  String.mk (List.replicate n ' ')

mutual

/-- `json.dumps(v, indent=2, ensure_ascii=False)` at nesting level `lvl`. -/
def dumpsAt : Nat → JVal → String
  | _, .null => "null"
  | _, .bool true => "true"
  | _, .bool false => "false"
  | _, .num n => toString n
  | _, .str s => "\"" ++ escapeString s ++ "\""
  | _, .arr [] => "[]"
  | lvl, .arr (x :: xs) =>
      "[\n" ++ dumpsArrItems (lvl + 1) x xs ++ "\n" ++ indentSpaces (2 * lvl) ++ "]"
  | _, .obj [] => "\x7b\x7d"
  | lvl, .obj (f :: fs) =>
      "\x7b\n" ++ dumpsObjItems (lvl + 1) f fs ++ "\n" ++ indentSpaces (2 * lvl) ++ "\x7d"
termination_by lvl v => sizeOf v
decreasing_by all_goals (simp_wf <;> omega)

def dumpsArrItems : Nat → JVal → List JVal → String
  | lvl, x, [] => indentSpaces (2 * lvl) ++ dumpsAt lvl x
  | lvl, x, y :: ys =>
      indentSpaces (2 * lvl) ++ dumpsAt lvl x ++ ",\n" ++ dumpsArrItems lvl y ys
termination_by lvl x xs => sizeOf x + sizeOf xs
decreasing_by all_goals (simp_wf <;> omega)

def dumpsObjItems : Nat → (String × JVal) → List (String × JVal) → String
  | lvl, (k, v), [] =>
      indentSpaces (2 * lvl) ++ "\"" ++ escapeString k ++ "\": " ++ dumpsAt lvl v
  | lvl, (k, v), f :: fs =>
      indentSpaces (2 * lvl) ++ "\"" ++ escapeString k ++ "\": " ++ dumpsAt lvl v
        ++ ",\n" ++ dumpsObjItems lvl f fs
termination_by lvl kv fs => sizeOf kv + sizeOf fs
decreasing_by all_goals (simp_wf <;> omega)

end

/-- `json.dumps(v, indent=2, ensure_ascii=False)`. -/
def dumps (v : JVal) : String := dumpsAt 0 v

mutual

/-- Python `repr` of a JSON-ish value (string-escape corner cases elided; no
claim exercises them). -/
def pyReprOf : JVal → String
  | .null => "None"
  | .bool true => "True"
  | .bool false => "False"
  | .num n => toString n
  | .str s => "\x27" ++ s ++ "\x27"
  | .arr [] => "[]"
  | .arr (x :: xs) => "[" ++ pyReprSeq x xs ++ "]"
  | .obj [] => "\x7b\x7d"
  | .obj (f :: fs) => "\x7b" ++ pyReprKVs f fs ++ "\x7d"
termination_by v => sizeOf v
decreasing_by all_goals (simp_wf <;> omega)

def pyReprSeq : JVal → List JVal → String
  | x, [] => pyReprOf x
  | x, y :: ys => pyReprOf x ++ ", " ++ pyReprSeq y ys
termination_by x xs => sizeOf x + sizeOf xs
decreasing_by all_goals (simp_wf <;> omega)

def pyReprKVs : (String × JVal) → List (String × JVal) → String
  | (k, v), [] => "\x27" ++ k ++ "\x27: " ++ pyReprOf v
  | (k, v), f :: fs => "\x27" ++ k ++ "\x27: " ++ pyReprOf v ++ ", " ++ pyReprKVs f fs
termination_by kv fs => sizeOf kv + sizeOf fs
decreasing_by all_goals (simp_wf <;> omega)

end

/-- Python `str(v)`. -/
def pyStrOf : JVal → String
  | .str s => s
  | v => pyReprOf v

/-- Python truthiness (`if not keyword: ...`). -/
def pyFalsy : JVal → Bool
  | .null => true
  | .bool b => !b
  | .num n => n == 0
  | .str s => s.isEmpty
  | .arr xs => xs.isEmpty
  | .obj fs => fs.isEmpty

/-- Python `key in v`: key membership for a dict, element membership for a
list, substring test for a string; other operands raise `TypeError`. -/
def pyContains (key : String) : JVal → Except PyError Bool
  | .obj fields => .ok (fields.any (fun f => f.1 == key))
  | .arr xs => .ok (xs.any (fun x => match x with | .str s => s == key | _ => false))
  | .str s => .ok (decide (key.data <:+: s.data))
  | _ => .error (.typeError "argument of type is not iterable")

/-- Python `v.get(key, defaultVal)`: only dicts have `.get`; other receivers
raise `AttributeError`. -/
def pyDictGet (v : JVal) (key : String) (defaultVal : JVal) : Except PyError JVal :=
  match v with
  | .obj fields => .ok ((fields.lookup key).getD defaultVal)
  | _ => .error (.attributeError "object has no attribute get")

/-- `v.get(key, defaultVal)` with an arbitrary (possibly non-string) key, as
used when `_get_section` receives a non-string `section` argument: a key of
the wrong type simply misses. -/
def pyDictGetJ (v : JVal) (key : JVal) (defaultVal : JVal) : Except PyError JVal :=
  match v with
  | .obj fields =>
      match key with
      | .str s => .ok ((fields.lookup s).getD defaultVal)
      | _ => .ok defaultVal
  | _ => .error (.attributeError "object has no attribute get")

/-- Python `for x in v`: lists iterate elements, dicts iterate keys, strings
iterate characters; other operands raise `TypeError`. -/
def pyIterList : JVal → Except PyError (List JVal)
  | .arr xs => .ok xs
  | .obj fs => .ok (fs.map (fun f => JVal.str f.1))
  | .str s => .ok (s.data.map (fun c => JVal.str (String.singleton c)))
  | _ => .error (.typeError "object is not iterable")

def decDigit? (c : Char) : Option Nat :=
  if c.isDigit then some (c.toNat - '0'.toNat) else none

def decNatAux : List Char → Nat → Option Nat
  | [], acc => some acc
  | c :: cs, acc =>
      match decDigit? c with
      | some d => decNatAux cs (acc * 10 + d)
      | none => none

/-- The decimal-integer strings `int()` accepts (surrounding whitespace and
digit-group underscores, which CPython also tolerates, are elided; no claim
exercises them). -/
def pyStrToInt? (s : String) : Option Int :=
  match s.data with
  | [] => none
  | '-' :: rest =>
      match rest with
      | [] => none
      | _ => (decNatAux rest 0).map (fun n => -(n : Int))
  | '+' :: rest =>
      match rest with
      | [] => none
      | _ => (decNatAux rest 0).map (fun n => (n : Int))
  | cs => (decNatAux cs 0).map (fun n => (n : Int))

/-- Python `int(v)` for the value shapes a JSON argument can take. -/
def pyInt : JVal → Except PyError Int
  | .num n => .ok n
  | .bool b => .ok (if b then 1 else 0)
  | .str s =>
      match pyStrToInt? s with
      | some n => .ok n
      | none => .error (.valueError "invalid literal for int() with base 10")
  | _ => .error (.typeError "int() argument must be a string or a number")

/-- Python `s.lower()` (ASCII case folding; `str.lower` on the data used here
is ASCII). -/
def lowerStr (s : String) : String := String.mk (s.data.map Char.toLower)

/-- Python substring test `needle in hay`. -/
def isSubstr (needle hay : String) : Bool :=
  decide (needle.data <:+: hay.data)

/-! ## agent_tools.py : `PortfolioTools` -/

/-- The observable states of the JSON file backing `PortfolioTools`:
absent, present but unparseable (the message is what `json.load` would put in
the raised `JSONDecodeError`), or successfully parsed to a value. -/
inductive FileState where
  | missing : FileState
  | corrupt : String → FileState
  | parsed : JVal → FileState

/-- A `PortfolioTools` instance: its `data_path` and the state of the file at
that path.  The file is consulted afresh on every tool call. -/
structure ToolsCtx where
  data_path : String
  file : FileState

/-- `PortfolioTools._load_data`: a missing file returns the error dict (it
does not raise); a corrupt file makes `json.load` raise. -/
def _load_data (t : ToolsCtx) : Except PyError JVal :=
  match t.file with
  | .missing => .ok (.obj [("error", .str ("Portfolio data file not found: " ++ t.data_path))])
  | .corrupt why => .error (.jsonDecode why)
  | .parsed doc => .ok doc

/-- `PortfolioTools._dump`. -/
def _dump (data : JVal) : String := dumps data

/-- `PortfolioTools._get_section` (the `sectionKey` argument is Python's
`section` parameter; arbitrary values are accepted, as in Python). -/
def _get_section (t : ToolsCtx) (sectionKey : JVal) : Except PyError String := do
  let data ← _load_data t
  if (← pyContains "error" data) then
    return _dump data
  return _dump (← pyDictGetJ data sectionKey (.arr []))

/-- `PortfolioTools._sanitize_limit` (defaults `default=10`, `max_limit=50`
are passed explicitly by the callers below). -/
def _sanitize_limit (limit : JVal) (defaultVal max_limit : Int) : Int :=
  match limit with
  | .null => defaultVal
  | l =>
      match pyInt l with
      | .error _ => defaultVal
      | .ok limit_int => if limit_int ≤ 0 then defaultVal else min limit_int max_limit

def get_profile (t : ToolsCtx) : Except PyError String := _get_section t (.str "profile")

def get_contact (t : ToolsCtx) : Except PyError String := _get_section t (.str "contact")

def get_links (t : ToolsCtx) : Except PyError String := _get_section t (.str "links")

/-- `PortfolioTools.get_about`. -/
def get_about (t : ToolsCtx) : Except PyError String := do
  let data ← _load_data t
  if (← pyContains "error" data) then
    return _dump data
  let profile ← pyDictGet data "profile" (.obj [])
  return _dump (.obj [("about", ← pyDictGet profile "about" .null)])

def get_education (t : ToolsCtx) : Except PyError String := _get_section t (.str "education")

def get_skills (t : ToolsCtx) : Except PyError String := _get_section t (.str "skills")

def get_experience (t : ToolsCtx) : Except PyError String := _get_section t (.str "experience")

def get_projects (t : ToolsCtx) : Except PyError String := _get_section t (.str "projects")

/-- One project's haystack test in `search_projects`: the lower-cased join of
`str(project.get("name", ""))` and `str(project.get("summary", ""))`. -/
def projectMatches (keyword_lower : String) (project : JVal) : Except PyError Bool := do
  let nameV ← pyDictGet project "name" (.str "")
  let summaryV ← pyDictGet project "summary" (.str "")
  let haystack := lowerStr (pyStrOf nameV ++ " " ++ pyStrOf summaryV)
  return isSubstr keyword_lower haystack

/-- The `for project in projects:` accumulation loop of `search_projects`:
matching projects are appended in iteration (Document) order. -/
def collectMatches (keyword_lower : String) : List JVal → Except PyError (List JVal)
  | [] => .ok []
  | p :: ps => do
      let b ← projectMatches keyword_lower p
      let rest ← collectMatches keyword_lower ps
      if b then return p :: rest else return rest

/-- `PortfolioTools.search_projects`. -/
def search_projects (t : ToolsCtx) (keyword : JVal) (limit : JVal) : Except PyError String := do
  let data ← _load_data t
  if (← pyContains "error" data) then
    return _dump data
  if pyFalsy keyword then
    return _dump (.obj [("error", .str "Keyword is required.")])
  let kw ← match keyword with
    | .str s => pure s
    | _ => throw (PyError.attributeError "object has no attribute lower")
  let keyword_lower := lowerStr kw
  let projects ← pyDictGet data "projects" (.arr [])
  let rows ← pyIterList projects
  let matched ← collectMatches keyword_lower rows
  let lim := _sanitize_limit limit 10 50
  return _dump (.arr (matched.take lim.toNat))

/-! ## agent_tools.py : tool descriptor catalog (`get_tool_definitions`) -/

/-- One entry of the published tool catalog, mirroring the
`{"type": "function", "function": {...}}` dictionaries in the source. -/
structure ToolDef where
  ttype : String
  name : String
  description : String
  parameters : JVal

/-- `get_tool_definitions()`. -/
def get_tool_definitions : List ToolDef := [
  { ttype := "function", name := "get_profile",
    description := "Get the core profile (name, tagline, about). Use for general introductions.",
    parameters := .obj [("type", .str "object"), ("properties", .obj [])] },
  { ttype := "function", name := "get_contact",
    description := "Get contact details (email). Use when the user asks how to reach out.",
    parameters := .obj [("type", .str "object"), ("properties", .obj [])] },
  { ttype := "function", name := "get_links",
    description := "Get public links (GitHub, LinkedIn, Instagram).",
    parameters := .obj [("type", .str "object"), ("properties", .obj [])] },
  { ttype := "function", name := "get_about",
    description := "Get the about summary for the portfolio.",
    parameters := .obj [("type", .str "object"), ("properties", .obj [])] },
  { ttype := "function", name := "get_education",
    description := "Get education history.",
    parameters := .obj [("type", .str "object"), ("properties", .obj [])] },
  { ttype := "function", name := "get_skills",
    description := "Get the skills list grouped by category.",
    parameters := .obj [("type", .str "object"), ("properties", .obj [])] },
  { ttype := "function", name := "get_experience",
    description := "Get work and fellowship experience.",
    parameters := .obj [("type", .str "object"), ("properties", .obj [])] },
  { ttype := "function", name := "get_projects",
    description := "Get the portfolio projects.",
    parameters := .obj [("type", .str "object"), ("properties", .obj [])] },
  { ttype := "function", name := "search_projects",
    description := "Search projects by keyword in name or summary.",
    parameters := .obj [
      ("type", .str "object"),
      ("properties", .obj [
        ("keyword", .obj [("type", .str "string"),
          ("description", .str "Search keyword (e.g., \x27Power BI\x27, \x27Python\x27).")]),
        ("limit", .obj [("type", .str "integer"),
          ("description", .str "Max results. Default 10.")])]),
      ("required", .arr [.str "keyword"])] }]

/-! ## portfolio_agent.py : `_execute_tool` and `getattr` dispatch -/

/-- The attributes `getattr` can find on a `PortfolioTools` instance: the
methods defined by the class and the `data_path` instance attribute.
Attributes inherited from `object` (dunder methods) are elided; they would
only add further dispatchable names outside the catalog. -/
inductive ToolsAttr where
  | initMethod
  | loadDataM
  | dumpM
  | getSectionM
  | sanitizeLimitM
  | getProfileM
  | getContactM
  | getLinksM
  | getAboutM
  | getEducationM
  | getSkillsM
  | getExperienceM
  | getProjectsM
  | searchProjectsM
  | dataPathAttr
deriving DecidableEq

/-- `getattr(self.tools, tool_name, None)`. -/
def toolsGetattr (attrName : String) : Option ToolsAttr :=
  if attrName = "__init__" then some .initMethod
  else if attrName = "_load_data" then some .loadDataM
  else if attrName = "_dump" then some .dumpM
  else if attrName = "_get_section" then some .getSectionM
  else if attrName = "_sanitize_limit" then some .sanitizeLimitM
  else if attrName = "get_profile" then some .getProfileM
  else if attrName = "get_contact" then some .getContactM
  else if attrName = "get_links" then some .getLinksM
  else if attrName = "get_about" then some .getAboutM
  else if attrName = "get_education" then some .getEducationM
  else if attrName = "get_skills" then some .getSkillsM
  else if attrName = "get_experience" then some .getExperienceM
  else if attrName = "get_projects" then some .getProjectsM
  else if attrName = "search_projects" then some .searchProjectsM
  else if attrName = "data_path" then some .dataPathAttr
  else none

/-- Bind `**kwargs` against a zero-parameter method. -/
def bindNoArgs (fields : List (String × JVal)) (run : Unit → Except PyError JVal) :
    Except PyError JVal :=
  match fields with
  | [] => run ()
  | (k, _) :: _ => .error (.typeError ("got an unexpected keyword argument " ++ k))

/-- Bind `**kwargs` against a method with exactly one required parameter. -/
def bindOneArg (pname : String) (fields : List (String × JVal))
    (run : JVal → Except PyError JVal) : Except PyError JVal :=
  match fields.filter (fun f => f.1 ≠ pname) with
  | (k, _) :: _ => .error (.typeError ("got an unexpected keyword argument " ++ k))
  | [] =>
      match fields.lookup pname with
      | none => .error (.typeError ("missing a required argument: " ++ pname))
      | some v => run v

/-- Bind `**kwargs` against `search_projects(keyword, limit=10)`. -/
def bindSearchArgs (fields : List (String × JVal))
    (run : JVal → JVal → Except PyError JVal) : Except PyError JVal :=
  match fields.filter (fun f => f.1 ≠ "keyword" ∧ f.1 ≠ "limit") with
  | (k, _) :: _ => .error (.typeError ("got an unexpected keyword argument " ++ k))
  | [] =>
      match fields.lookup "keyword" with
      | none => .error (.typeError "missing a required argument: keyword")
      | some kw => run kw ((fields.lookup "limit").getD (.num 10))

/-- Invoke `tool_method(**args)` for a resolved attribute.  String-returning
methods come back as `JVal.str`; `_load_data` returns its dict un-serialized
and `_sanitize_limit` an int, exactly as in Python (the source's
`-> str` return type hint is not enforced there).  Calling the non-callable
`data_path` attribute raises `TypeError`.  `__init__`'s rebinding of
`data_path` is a state effect on the instance with no observable return
value; it is elided here (no claim exercises it). -/
def callToolsAttr (t : ToolsCtx) (attr : ToolsAttr) (fields : List (String × JVal)) :
    Except PyError JVal :=
  match attr with
  | .getProfileM => bindNoArgs fields (fun _ => do return .str (← get_profile t))
  | .getContactM => bindNoArgs fields (fun _ => do return .str (← get_contact t))
  | .getLinksM => bindNoArgs fields (fun _ => do return .str (← get_links t))
  | .getAboutM => bindNoArgs fields (fun _ => do return .str (← get_about t))
  | .getEducationM => bindNoArgs fields (fun _ => do return .str (← get_education t))
  | .getSkillsM => bindNoArgs fields (fun _ => do return .str (← get_skills t))
  | .getExperienceM => bindNoArgs fields (fun _ => do return .str (← get_experience t))
  | .getProjectsM => bindNoArgs fields (fun _ => do return .str (← get_projects t))
  | .searchProjectsM =>
      bindSearchArgs fields (fun kw lim => do return .str (← search_projects t kw lim))
  | .loadDataM => bindNoArgs fields (fun _ => _load_data t)
  | .dumpM => bindOneArg "data" fields (fun d => .ok (.str (_dump d)))
  | .getSectionM => bindOneArg "section" fields (fun s => do return .str (← _get_section t s))
  | .sanitizeLimitM =>
      bindOneArg "limit" fields (fun lim => .ok (.num (_sanitize_limit lim 10 50)))
  | .initMethod =>
      match fields.filter (fun f => f.1 ≠ "data_path") with
      | (k, _) :: _ => .error (.typeError ("got an unexpected keyword argument " ++ k))
      | [] => .ok .null
  | .dataPathAttr => .error (.typeError "PosixPath object is not callable")

/-- The Python rendering of the dispatched tool name inside f-strings
(`tool_name` may be `None`). -/
def optNameStr : Option String → String
  | none => "None"
  | some s => s

/-- The body of `LLMPortfolioAgent._execute_tool` up to its enclosing
`try`/`except`: any `Except.error` here is an exception reaching the
`except` clause.  `loads` is the external `json.loads` (returning `none`
when it would raise `JSONDecodeError`). -/
def execute_tool_unwrapped (loads : String → Option JVal) (t : ToolsCtx)
    (tool_name : Option String) (arguments : JVal) : Except PyError JVal := do
  let args ← match arguments with
    | .str s =>
        match loads s with
        | some v => pure v
        | none => throw (PyError.jsonDecode "Expecting value")
    | v => pure v
  let nm ← match tool_name with
    | none => throw (PyError.typeError "attribute name must be string")
    | some n => pure n
  match toolsGetattr nm with
  | none => return .str (dumps (.obj [("error", .str ("Tool " ++ nm ++ " not found"))]))
  | some attr =>
      match args with
      | .obj fields => callToolsAttr t attr fields
      | _ => throw (PyError.typeError "argument after ** must be a mapping")

/-- `LLMPortfolioAgent._execute_tool`: never raises; every exception becomes
the serialized error payload. -/
def execute_tool (loads : String → Option JVal) (t : ToolsCtx)
    (tool_name : Option String) (arguments : JVal) : JVal :=
  match execute_tool_unwrapped loads t tool_name arguments with
  | .ok v => v
  | .error e =>
      .str (dumps (.obj [("error",
        .str ("Error executing " ++ optNameStr tool_name ++ ": " ++ pyErrStr e))]))

/-! ## portfolio_agent.py : canonical messages and the `ask` loop

The backend seam (`_chat`) is modelled as an explicit function argument of
type `ChatFn`: given the index of the call within one `ask` (0-based, fully
general for replaying any concrete client behavior), the outgoing
transcript, and the tool catalog passed (`none` when `tools=None`), it
either raises a backend fault or returns the canonical response shape
`{"message": ..., "usage": ...}` that both provider branches of `_chat`
produce.  `runAsk` additionally records every backend call in a `CallRec`
log; this instrumentation only observes, it never alters control flow. -/

/-- One entry of a message's `tool_calls` list, flattening the nested
`{"id": ..., "function": {"name": ..., "arguments": ...}}` shape into the
fields the loop reads (`JVal.null` stands for an absent `arguments`, as
`function.get("arguments")` yields `None` for both).  The `"type"` field is
written but never read by the loop and is not carried. -/
structure ToolCallReq where
  id : Option String
  fname : Option String
  arguments : JVal

/-- A canonical transcript message.  `content := none` models an absent
`content` key (so Python `.get("content", d)` is `content.getD d`). -/
structure Msg where
  role : String
  content : Option JVal
  tool_calls : Option (List ToolCallReq)
  tool_call_id : Option String
  name : Option String

/-- A message with only `role` and `content` keys (user/assistant/system
turns). -/
def contentMsg (role : String) (v : JVal) : Msg :=
  { role := role, content := some v, tool_calls := none, tool_call_id := none, name := none }

def textMsg (role text : String) : Msg := contentMsg role (.str text)

/-- The synthetic assistant tool-call-request message the loop appends. -/
def asstToolCallMsg (tool_call_id : String) (fname : Option String) (argsForMsg : JVal) : Msg :=
  { role := "assistant", content := some (.str ""),
    tool_calls := some [{ id := some tool_call_id, fname := fname, arguments := argsForMsg }],
    tool_call_id := none, name := none }

/-- The tool-result message the loop appends right after it. -/
def toolResultMsg (tool_call_id : String) (fname : Option String) (result : JVal) : Msg :=
  { role := "tool", content := some result, tool_calls := none,
    tool_call_id := some tool_call_id, name := fname }

/-- The canonical usage triple (`None` entries preserved, not zeroed). -/
structure UsageRec where
  input_tokens : Option Int
  output_tokens : Option Int
  total_tokens : Option Int

/-- One entry of the per-ask `usage_log` (`iteration` key plus the triple). -/
structure UsageLogEntry where
  iter : Nat
  usage : UsageRec

/-- The canonical response of `_chat`. -/
structure ChatResponse where
  message : Option Msg
  usage : Option UsageRec

/-- A backend fault (network/auth/decode error raised by the client call). -/
abbrev BackendFault := String

/-- The model backend seam (see the section comment). -/
abbrev ChatFn := Nat → List Msg → Option (List ToolDef) → Except BackendFault ChatResponse

/-- Instrumentation record of one backend call. -/
structure CallRec where
  idx : Nat
  sentMessages : List Msg
  sentTools : Option (List ToolDef)

/-- The loop-local state of one `ask` invocation. -/
structure LoopSt where
  messages : List Msg
  reasoning_steps : List (String × JVal × JVal)
  tool_calls_made : List (Option String × JVal)
  last_tool_result : Option JVal
  usage_log : List UsageLogEntry
  callLog : List CallRec

/-- The dictionary `ask` returns (keys that appear on only one of the two
return paths are `Option`). -/
structure AskResult where
  answer : JVal
  reasoning_steps : List (String × JVal × JVal)
  tool_calls_made : List (Option String × JVal)
  iterations : Nat
  tool_result : Option JVal
  note : Option String
  usage_log : List UsageLogEntry

/-- The `parsed_args` computation: a string argument is JSON-decoded,
tolerating malformed JSON by substituting the raw-string fallback object;
a structured argument passes through. -/
def parseArgsFor (loads : String → Option JVal) : JVal → JVal
  | .str s =>
      match loads s with
      | some v => v
      | none => .obj [("raw_arguments", .str s)]
  | v => v

/-- The `arguments_for_message` computation: the per-provider re-encoding of
a tool call's arguments for replay into the transcript. -/
def argumentsForMessage (loads : String → Option JVal) (provider : String)
    (tool_args : JVal) : JVal :=
  let parsed_args := parseArgsFor loads tool_args
  if provider = "openai" then
    match tool_args with
    | .str s => .str s
    | _ => .str (dumps parsed_args)
  else parsed_args

/-- The body of `for tool_call in tool_calls: ...` for one tool call. -/
def processToolCall (loads : String → Option JVal) (t : ToolsCtx) (provider : String)
    (iteration : Nat) (st : LoopSt) (tc : ToolCallReq) : LoopSt :=
  let tool_name := tc.fname
  let tool_args := tc.arguments
  let tool_result := execute_tool loads t tool_name tool_args
  let afm := argumentsForMessage loads provider tool_args
  let tool_call_id := tc.id.getD ("call_" ++ toString iteration)
  { st with
    messages := st.messages ++
      [asstToolCallMsg tool_call_id tool_name afm,
       toolResultMsg tool_call_id tool_name tool_result],
    reasoning_steps := st.reasoning_steps ++
      [("Called " ++ optNameStr tool_name, tool_args, tool_result)],
    tool_calls_made := st.tool_calls_made ++ [(tool_name, tool_args)],
    last_tool_result := some tool_result }

/-- The system instruction of the forced final call on exhaustion. -/
def finalInstructionMsg : Msg :=
  textMsg "system" "Please provide your final answer based on the information gathered so far."

/-- The static fallback answer. -/
def fallbackAnswer : String := "I need more information to provide a complete answer."

/-- The fallback block after the `for` loop: one last `_chat` call with
`tools=None` and the extra system instruction (appended only to the call's
argument, not to the loop state). -/
def exhaustStep (chat : ChatFn) (max_iterations : Nat) (st : LoopSt) :
    LoopSt × Except BackendFault AskResult :=
  let sent := st.messages ++ [finalInstructionMsg]
  let idx := st.callLog.length
  let st := { st with callLog := st.callLog ++ [{ idx := idx, sentMessages := sent, sentTools := none }] }
  match chat idx sent none with
  | .error e => (st, .error e)
  | .ok resp =>
      let st := match resp.usage with
        | some u => { st with usage_log := st.usage_log ++ [{ iter := max_iterations + 1, usage := u }] }
        | none => st
      let final_answer : JVal := match resp.message with
        | none => .str fallbackAnswer
        | some m => m.content.getD (.str fallbackAnswer)
      (st, .ok {
        answer := final_answer,
        reasoning_steps := st.reasoning_steps,
        tool_calls_made := st.tool_calls_made,
        iterations := max_iterations,
        tool_result := none,
        note := some "Reached max iterations",
        usage_log := st.usage_log })

/-- The empty dict default of `response.get("message", {})`. -/
def emptyMsg : Msg :=
  { role := "", content := none, tool_calls := none, tool_call_id := none, name := none }

/-- `for iteration in range(max_iterations): ...`, with `remaining` the
iterations left (`iteration + remaining = max_iterations`). -/
def askLoop (loads : String → Option JVal) (t : ToolsCtx) (provider : String)
    (chat : ChatFn) (max_iterations : Nat) :
    Nat → Nat → LoopSt → LoopSt × Except BackendFault AskResult
  | _, 0, st => exhaustStep chat max_iterations st
  | iteration, remaining + 1, st =>
    let idx := st.callLog.length
    let sent := st.messages
    let st1 := { st with callLog := st.callLog ++
      [{ idx := idx, sentMessages := sent, sentTools := some get_tool_definitions }] }
    match chat idx sent (some get_tool_definitions) with
    | .error e => (st1, .error e)
    | .ok resp =>
        let st2 := match resp.usage with
          | some u => { st1 with usage_log := st1.usage_log ++ [{ iter := iteration + 1, usage := u }] }
          | none => st1
        let message := resp.message.getD emptyMsg
        match message.tool_calls with
        | some (tc :: tcs) =>
            let st3 := (tc :: tcs).foldl (processToolCall loads t provider iteration) st2
            askLoop loads t provider chat max_iterations (iteration + 1) remaining st3
        | _ =>
            let final_answer := message.content.getD (.str "")
            (st2, .ok {
              answer := final_answer,
              reasoning_steps := st2.reasoning_steps,
              tool_calls_made := st2.tool_calls_made,
              iterations := iteration + 1,
              tool_result := st2.last_tool_result,
              note := none,
              usage_log := st2.usage_log })

/-- The outcome of one `ask` invocation: the persisted conversation history
after the call (mutated even when a backend fault propagates), the returned
dictionary or propagated fault, and the instrumented backend-call log. -/
structure AskRun where
  history : List Msg
  outcome : Except BackendFault AskResult
  callLog : List CallRec

/-- The agent's fixed system prompt (`LLMPortfolioAgent.system_prompt`);
its exact text is irrelevant to every claim. -/
def system_prompt : String :=
  "\nYou are the portfolio assistant for Rakshya Pandey.\n"

/-- `LLMPortfolioAgent.ask`: appends the user turn, builds the transient
transcript, runs the loop, and appends the assistant turn on either
completed exit (Done or the exhaustion fallback); a backend fault leaves
the history with only the user turn appended. -/
def initLoopSt (sysPrompt : String) (history : List Msg) (query : String) : LoopSt :=
  { messages := textMsg "system" sysPrompt :: (history ++ [textMsg "user" query]),
    reasoning_steps := [], tool_calls_made := [],
    last_tool_result := none, usage_log := [], callLog := [] }

def runAsk (loads : String → Option JVal) (t : ToolsCtx) (provider : String)
    (chat : ChatFn) (sysPrompt : String) (history : List Msg) (query : String)
    (max_iterations : Nat) : AskRun :=
  let history1 := history ++ [textMsg "user" query]
  match askLoop loads t provider chat max_iterations 0 max_iterations
      (initLoopSt sysPrompt history query) with
  | (st, .ok r) =>
      { history := history1 ++ [contentMsg "assistant" r.answer], outcome := .ok r,
        callLog := st.callLog }
  | (st, .error e) => { history := history1, outcome := .error e, callLog := st.callLog }

/-- `LLMPortfolioAgent.reset_conversation`. -/
def reset_conversation (_history : List Msg) : List Msg := []

/-! ## fastapi_app.py : the service boundary -/

/-- The request body of `POST /portfolio/ask`. -/
structure AskRequest where
  query : String
  max_iterations : Nat
  verbose : Bool

/-- What the route hands back to the HTTP layer. -/
inductive ApiResult where
  | okAnswer : JVal → ApiResult
  | httpError : Nat → String → ApiResult

/-- `verify_internal_auth`: the shared-secret header compared for exact
equality against the configured token (`Header(None)` makes an absent
header `none`); a mismatch raises 401. -/
def verify_internal_auth (x_internal_auth : Option String) (internalToken : String) :
    Except (Nat × String) Unit :=
  if x_internal_auth = some internalToken then .ok () else .error (401, "Unauthorized")

/-- The `/portfolio/ask` route as registered in the source: the decorator
carrying `dependencies=[Depends(verify_internal_auth)]` is commented out,
so the active handler never consults the auth header before calling
`agent.ask`; a fault from `ask` is reduced to a 500 with `str(e)`. -/
def ask_agent (loads : String → Option JVal) (t : ToolsCtx) (provider : String)
    (chat : ChatFn) (sysPrompt : String) (history : List Msg)
    (_x_internal_auth : Option String) (_internalToken : String) (req : AskRequest) :
    AskRun × ApiResult :=
  let run := runAsk loads t provider chat sysPrompt history req.query req.max_iterations
  match run.outcome with
  | .ok r => (run, .okAnswer r.answer)
  | .error e => (run, .httpError 500 e)

/-! ## Concrete scenario material shared by the theorems below -/

/-- A small portfolio document in the shape the tools expect. -/
def sampleDoc : JVal := .obj [
  ("profile", .obj [("name", .str "Rakshya Pandey"), ("about", .str "Data scientist.")]),
  ("projects", .arr [
     .obj [("name", .str "Sales Dashboard"), ("summary", .str "Built with Power BI tooling")],
     .obj [("name", .str "Py ETL"), ("summary", .str "Python pipeline")],
     .obj [("name", .str "KPI Report"), ("summary", .str "Power BI visuals")]])]

/-- Tools over an intact data file. -/
def tOK : ToolsCtx := { data_path := "portfolio_data.json", file := .parsed sampleDoc }

/-- A `json.loads` stand-in that fails on every input (the loop scenarios
below never feed it a string that must parse). -/
def loadsNone : String → Option JVal := fun _ => none

/-- A model message requesting one `get_profile` tool call. -/
def toolRespMsg : Msg :=
  { role := "assistant", content := some (JVal.str ""),
    tool_calls := some [{ id := none, fname := some "get_profile", arguments := JVal.null }],
    tool_call_id := none, name := none }

def toolResp : ChatResponse := { message := some toolRespMsg, usage := none }

/-- A backend that requests a tool call on every call. -/
def chatAllTools : ChatFn := fun _ _ _ => .ok toolResp

/-- A backend that immediately returns a final answer. -/
def chatDone : ChatFn := fun _ _ _ =>
  .ok { message := some (textMsg "assistant" "hi"), usage := none }

/-- A backend that always raises. -/
def chatFail : ChatFn := fun _ _ _ => .error "boom"

/-- An assistant message carrying no `content` key at all. -/
def noContentMsg : Msg :=
  { role := "assistant", content := none, tool_calls := none, tool_call_id := none, name := none }

/-- A backend that requests tools on calls 0 and 1 and then returns a
message with no content. -/
def chatExh : ChatFn := fun i _ _ =>
  if i < 2 then .ok toolResp else .ok { message := some noContentMsg, usage := none }

/-! ## Helper predicates over transcripts and outcomes -/

/-- A message whose `tool_calls` entry is absent or empty (Python-falsy). -/
def emptyCallsB (m : Msg) : Bool :=
  match m.tool_calls with
  | some (_ :: _) => false
  | _ => true

/-- `m` is a tool-call request correctly answered by the next message `n`:
a singleton request whose correlation id reappears as `n`'s
`tool_call_id`, with `n` in the `tool` role. -/
def pairOkB (m n : Msg) : Bool :=
  match m.tool_calls with
  | some [tc] =>
      (n.role == "tool") &&
        (match tc.id, n.tool_call_id with
         | some a, some b => a == b
         | _, _ => false)
  | _ => false

/-- No dangling tool-call request anywhere in the transcript: every message
carrying a nonempty `tool_calls` list is immediately followed by its
correlated tool-result message. -/
def danglingFreeB : List Msg → Bool
  | [] => true
  | [m] => emptyCallsB m
  | m :: n :: rest => (emptyCallsB m || pairOkB m n) && danglingFreeB (n :: rest)

/-- The last transcript entry (if any) carries no tool-call request. -/
def lastCleanB : List Msg → Bool
  | [] => true
  | [m] => emptyCallsB m
  | _ :: rest => lastCleanB rest

/-- How many persisted turns carry the given role. -/
def roleCount (role : String) (h : List Msg) : Nat :=
  (h.filter (fun m => m.role == role)).length

def isOkB : Except BackendFault AskResult → Bool
  | .ok _ => true
  | .error _ => false

/-- The `note` field of a completed outcome. -/
def noteOf : Except BackendFault AskResult → Option String
  | .ok r => r.note
  | .error _ => none

/-- The `answer` field of a completed outcome. -/
def answerOf : Except BackendFault AskResult → Option JVal
  | .ok r => some r.answer
  | .error _ => none

/-- The answer the exhaustion fallback extracts from the final response. -/
def contentOrFallback (resp : ChatResponse) : JVal :=
  match resp.message with
  | none => .str fallbackAnswer
  | some m => m.content.getD (.str fallbackAnswer)

/-! ## Loop infrastructure lemmas -/

lemma processToolCall_callLog (loads : String → Option JVal) (t : ToolsCtx)
    (provider : String) (iteration : Nat) (st : LoopSt) (tc : ToolCallReq) :
    (processToolCall loads t provider iteration st tc).callLog = st.callLog := rfl

lemma foldl_processToolCall_callLog (loads : String → Option JVal) (t : ToolsCtx)
    (provider : String) (iteration : Nat) :
    ∀ (tcs : List ToolCallReq) (st : LoopSt),
      ((tcs.foldl (processToolCall loads t provider iteration) st).callLog = st.callLog) := by
  intro tcs
  induction tcs with
  | nil => intro st; rfl
  | cons tc rest ih =>
      intro st
      rw [List.foldl_cons, ih]
      exact processToolCall_callLog loads t provider iteration st tc

lemma exhaustStep_callLog_len (chat : ChatFn) (m : Nat) (st : LoopSt) :
    (exhaustStep chat m st).1.callLog.length = st.callLog.length + 1 := by
  unfold exhaustStep
  cases h : chat st.callLog.length (st.messages ++ [finalInstructionMsg]) none with
  | error e => simp [h]
  | ok resp => cases hu : resp.usage <;> simp [h, hu]

lemma askLoop_callLog_le (loads : String → Option JVal) (t : ToolsCtx)
    (provider : String) (chat : ChatFn) (m : Nat) :
    ∀ (remaining iteration : Nat) (st : LoopSt),
      (askLoop loads t provider chat m iteration remaining st).1.callLog.length ≤
        st.callLog.length + remaining + 1 := by
  intro remaining
  induction remaining with
  | zero =>
      intro iteration st
      simp only [askLoop]
      rw [exhaustStep_callLog_len]
  | succ r ih =>
      intro iteration st
      simp only [askLoop]
      cases h : chat st.callLog.length st.messages (some get_tool_definitions) with
      | error e => simp [h]
      | ok resp =>
          cases hu : resp.usage with
          | none =>
              cases htc : (resp.message.getD emptyMsg).tool_calls with
              | none => simp [h, hu, htc]
              | some tcs =>
                  cases tcs with
                  | nil => simp [h, hu, htc]
                  | cons tc rest =>
                      simp only [h, hu, htc]
                      refine le_trans (ih _ _) ?_
                      rw [foldl_processToolCall_callLog]
                      simp
                      omega
          | some u =>
              cases htc : (resp.message.getD emptyMsg).tool_calls with
              | none => simp [h, hu, htc]
              | some tcs =>
                  cases tcs with
                  | nil => simp [h, hu, htc]
                  | cons tc rest =>
                      simp only [h, hu, htc]
                      refine le_trans (ih _ _) ?_
                      rw [foldl_processToolCall_callLog]
                      simp
                      omega

lemma runAsk_callLog_eq (loads : String → Option JVal) (t : ToolsCtx) (provider : String)
    (chat : ChatFn) (sysPrompt : String) (history : List Msg) (query : String) (m : Nat) :
    (runAsk loads t provider chat sysPrompt history query m).callLog =
      (askLoop loads t provider chat m 0 m (initLoopSt sysPrompt history query)).1.callLog := by
  unfold runAsk
  cases h : askLoop loads t provider chat m 0 m (initLoopSt sysPrompt history query) with
  | mk st out => cases out <;> simp [h]

lemma runAsk_callLog_le (loads : String → Option JVal) (t : ToolsCtx) (provider : String)
    (chat : ChatFn) (sysPrompt : String) (history : List Msg) (query : String) (m : Nat) :
    (runAsk loads t provider chat sysPrompt history query m).callLog.length ≤ m + 1 := by
  rw [runAsk_callLog_eq]
  have h := askLoop_callLog_le loads t provider chat m m 0 (initLoopSt sysPrompt history query)
  simpa [initLoopSt] using h

/-- C1: every `ask` invocation performs at most `max_iterations + 1`
model-backend calls (the loop makes one per iteration plus one forced final
call on exhaustion); and with a backend that requests tool calls on every
iteration and `max_iterations = 3`, exactly 4 model calls occur. -/
theorem ask_model_call_budget :
    (∀ (loads : String → Option JVal) (t : ToolsCtx) (provider : String) (chat : ChatFn)
        (sysPrompt : String) (history : List Msg) (query : String) (m : Nat),
        (runAsk loads t provider chat sysPrompt history query m).callLog.length ≤ m + 1) ∧
    (runAsk loadsNone tOK "openai" chatAllTools system_prompt [] "q" 3).callLog.length = 4 := by
  constructor
  · exact runAsk_callLog_le
  · rfl

lemma askLoop_first_err (loads : String → Option JVal) (t : ToolsCtx) (provider : String)
    (chat : ChatFn) (m r iteration : Nat) (st : LoopSt) (e : BackendFault)
    (h : chat st.callLog.length st.messages (some get_tool_definitions) = .error e) :
    askLoop loads t provider chat m iteration (r + 1) st =
      ({ st with callLog := st.callLog ++
          [{ idx := st.callLog.length, sentMessages := st.messages,
             sentTools := some get_tool_definitions }] }, .error e) := by
  simp only [askLoop, h]

/-- C10: a backend fault propagating out of `ask` leaves the persisted
conversation mutated: the user turn appended at entry stays with no
matching assistant turn, so a later `ask` starts from the orphaned turn. -/
theorem ask_fault_orphans_user_turn (loads : String → Option JVal) (t : ToolsCtx)
    (provider : String) (chat : ChatFn) (sysPrompt : String) (history : List Msg)
    (query : String) (m : Nat) (e : BackendFault)
    (h : chat 0 (textMsg "system" sysPrompt :: (history ++ [textMsg "user" query]))
          (some get_tool_definitions) = .error e) :
    (runAsk loads t provider chat sysPrompt history query (m + 1)).history =
        history ++ [textMsg "user" query] ∧
    (runAsk loads t provider chat sysPrompt history query (m + 1)).outcome = .error e ∧
    (runAsk loads t provider chat sysPrompt history query (m + 1)).callLog.length = 1 ∧
    roleCount "assistant" (runAsk loads t provider chat sysPrompt history query (m + 1)).history =
      roleCount "assistant" history := by
  have h0 : chat (initLoopSt sysPrompt history query).callLog.length
      (initLoopSt sysPrompt history query).messages (some get_tool_definitions) = .error e := h
  have hstep := askLoop_first_err loads t provider chat (m + 1) m 0
    (initLoopSt sysPrompt history query) e h0
  refine ⟨?_, ?_, ?_, ?_⟩ <;>
    · simp only [runAsk, hstep]
      try simp [initLoopSt, roleCount, textMsg, contentMsg]

/-- C10 witness: a concrete failing backend exhibits the orphaned user turn. -/
theorem ask_fault_orphans_user_turn_witness :
    (runAsk loadsNone tOK "openai" chatFail system_prompt [] "q" 5).history =
        [textMsg "user" "q"] ∧
    (runAsk loadsNone tOK "openai" chatFail system_prompt [] "q" 5).outcome = .error "boom" ∧
    (runAsk loadsNone tOK "openai" chatFail system_prompt [] "q" 5).callLog.length = 1 ∧
    roleCount "assistant" (runAsk loadsNone tOK "openai" chatFail system_prompt [] "q" 5).history =
      roleCount "assistant" [] := by
  have h := ask_fault_orphans_user_turn loadsNone tOK "openai" chatFail system_prompt [] "q"
    4 "boom" rfl
  simpa using h

lemma roleCount_append (role : String) (xs ys : List Msg) :
    roleCount role (xs ++ ys) = roleCount role xs + roleCount role ys := by
  simp [roleCount, List.filter_append]

/-- C3: a completed `ask` (Done or Exhausted, no backend fault) appends
exactly one user turn and one assistant turn to the persisted history,
leaves the tool-role and system-role turn counts untouched (in particular
zero if they were zero), and `reset_conversation` clears everything
unconditionally. -/
theorem ask_persists_exactly_two_turns (loads : String → Option JVal) (t : ToolsCtx)
    (provider : String) (chat : ChatFn) (sysPrompt : String) (history : List Msg)
    (query : String) (m : Nat)
    (h : isOkB (runAsk loads t provider chat sysPrompt history query m).outcome = true) :
    (∃ ans, (runAsk loads t provider chat sysPrompt history query m).history =
        history ++ [textMsg "user" query, contentMsg "assistant" ans]) ∧
    roleCount "user" (runAsk loads t provider chat sysPrompt history query m).history =
      roleCount "user" history + 1 ∧
    roleCount "assistant" (runAsk loads t provider chat sysPrompt history query m).history =
      roleCount "assistant" history + 1 ∧
    roleCount "tool" (runAsk loads t provider chat sysPrompt history query m).history =
      roleCount "tool" history ∧
    roleCount "system" (runAsk loads t provider chat sysPrompt history query m).history =
      roleCount "system" history ∧
    reset_conversation (runAsk loads t provider chat sysPrompt history query m).history = [] := by
  rcases heq : askLoop loads t provider chat m 0 m (initLoopSt sysPrompt history query)
    with ⟨st, out⟩
  cases out with
  | error e =>
      exfalso
      simp only [runAsk, heq, isOkB] at h
      exact Bool.false_ne_true h
  | ok r =>
      have hh : (runAsk loads t provider chat sysPrompt history query m).history =
          (history ++ [textMsg "user" query]) ++ [contentMsg "assistant" r.answer] := by
        simp only [runAsk, heq]
      refine ⟨⟨r.answer, by rw [hh]; simp⟩, ?_, ?_, ?_, ?_, rfl⟩ <;>
        · rw [hh, roleCount_append, roleCount_append]
          simp [roleCount, textMsg, contentMsg]

/-- C3 witness: a backend that answers immediately grows an empty history to
exactly one user and one assistant turn, and `reset_conversation` clears it. -/
theorem ask_persists_exactly_two_turns_witness :
    roleCount "user" (runAsk loadsNone tOK "openai" chatDone system_prompt [] "q" 5).history = 1 ∧
    roleCount "assistant" (runAsk loadsNone tOK "openai" chatDone system_prompt [] "q" 5).history = 1 ∧
    roleCount "tool" (runAsk loadsNone tOK "openai" chatDone system_prompt [] "q" 5).history = 0 ∧
    roleCount "system" (runAsk loadsNone tOK "openai" chatDone system_prompt [] "q" 5).history = 0 ∧
    reset_conversation (runAsk loadsNone tOK "openai" chatDone system_prompt [] "q" 5).history = [] := by
  have h := ask_persists_exactly_two_turns loadsNone tOK "openai" chatDone system_prompt [] "q" 5 rfl
  exact ⟨h.2.1, h.2.2.1, h.2.2.2.1, h.2.2.2.2.1, h.2.2.2.2.2⟩

lemma emptyCallsB_textMsg (role s : String) : emptyCallsB (textMsg role s) = true := rfl

lemma emptyCallsB_contentMsg (role : String) (v : JVal) : emptyCallsB (contentMsg role v) = true := rfl

lemma emptyCallsB_toolResultMsg (i : String) (f : Option String) (r : JVal) :
    emptyCallsB (toolResultMsg i f r) = true := rfl

lemma pairOkB_constructed (i : String) (f : Option String) (a r : JVal) :
    pairOkB (asstToolCallMsg i f a) (toolResultMsg i f r) = true := by
  simp [pairOkB, asstToolCallMsg, toolResultMsg]

lemma lastCleanB_cons (m : Msg) (l : List Msg) (h : l ≠ []) :
    lastCleanB (m :: l) = lastCleanB l := by
  cases l with
  | nil => exact absurd rfl h
  | cons n rest => rfl

lemma danglingFreeB_append (xs ys : List Msg) (h1 : danglingFreeB xs = true)
    (h2 : lastCleanB xs = true) (h3 : danglingFreeB ys = true) :
    danglingFreeB (xs ++ ys) = true := by
  induction xs with
  | nil => simpa using h3
  | cons m rest ih =>
      cases rest with
      | nil =>
          cases ys with
          | nil => simpa using h1
          | cons y ys' =>
              have hm : emptyCallsB m = true := h2
              simpa [danglingFreeB, hm] using h3
      | cons n rest' =>
          have h1' : (emptyCallsB m || pairOkB m n) = true ∧ danglingFreeB (n :: rest') = true := by
            simpa [danglingFreeB, Bool.and_eq_true] using h1
          have h2' : lastCleanB (n :: rest') = true := h2
          simp only [List.cons_append]
          have hshape : danglingFreeB (m :: n :: (rest' ++ ys)) =
              ((emptyCallsB m || pairOkB m n) && danglingFreeB (n :: (rest' ++ ys))) := rfl
          rw [hshape, h1'.1, Bool.true_and]
          simpa using ih h1'.2 h2'

lemma lastCleanB_append (xs ys : List Msg) (hne : ys ≠ []) (h3 : lastCleanB ys = true) :
    lastCleanB (xs ++ ys) = true := by
  induction xs with
  | nil => simpa using h3
  | cons m rest ih =>
      have htail : rest ++ ys ≠ [] := by
        intro hc
        exact hne (List.append_eq_nil.mp hc).2
      rw [List.cons_append, lastCleanB_cons m (rest ++ ys) htail]
      exact ih

lemma danglingFree_of_all_empty : ∀ l : List Msg, l.all emptyCallsB = true →
    danglingFreeB l = true ∧ lastCleanB l = true := by
  intro l
  induction l with
  | nil => intro _; exact ⟨rfl, rfl⟩
  | cons m rest ih =>
      intro h
      rw [List.all_cons, Bool.and_eq_true] at h
      rcases rest with _ | ⟨n, rest'⟩
      · exact ⟨h.1, h.1⟩
      · have hr := ih h.2
        constructor
        · have hshape : danglingFreeB (m :: n :: rest') =
              ((emptyCallsB m || pairOkB m n) && danglingFreeB (n :: rest')) := rfl
          rw [hshape, h.1, Bool.true_or, Bool.true_and]
          exact hr.1
        · rw [lastCleanB_cons m (n :: rest') (by simp)]
          exact hr.2

lemma processToolCall_messages (loads : String → Option JVal) (t : ToolsCtx)
    (provider : String) (iteration : Nat) (st : LoopSt) (tc : ToolCallReq) :
    (processToolCall loads t provider iteration st tc).messages =
      st.messages ++
        [asstToolCallMsg (tc.id.getD ("call_" ++ toString iteration)) tc.fname
           (argumentsForMessage loads provider tc.arguments),
         toolResultMsg (tc.id.getD ("call_" ++ toString iteration)) tc.fname
           (execute_tool loads t tc.fname tc.arguments)] := rfl

lemma invariant_processToolCall (loads : String → Option JVal) (t : ToolsCtx)
    (provider : String) (iteration : Nat) (st : LoopSt) (tc : ToolCallReq)
    (h1 : danglingFreeB st.messages = true) (h2 : lastCleanB st.messages = true) :
    danglingFreeB (processToolCall loads t provider iteration st tc).messages = true ∧
      lastCleanB (processToolCall loads t provider iteration st tc).messages = true := by
  rw [processToolCall_messages]
  set i := tc.id.getD ("call_" ++ toString iteration) with hi
  set a := asstToolCallMsg i tc.fname (argumentsForMessage loads provider tc.arguments) with ha
  set b := toolResultMsg i tc.fname (execute_tool loads t tc.fname tc.arguments) with hb
  have hpair : danglingFreeB [a, b] = true := by
    have hshape : danglingFreeB [a, b] = ((emptyCallsB a || pairOkB a b) && danglingFreeB [b]) := rfl
    rw [hshape, ha, hb, pairOkB_constructed, Bool.or_true, Bool.true_and]
    exact emptyCallsB_toolResultMsg i tc.fname _
  constructor
  · exact danglingFreeB_append _ _ h1 h2 hpair
  · refine lastCleanB_append _ _ (by simp) ?_
    show lastCleanB [a, b] = true
    rw [lastCleanB_cons a [b] (by simp)]
    exact emptyCallsB_toolResultMsg i tc.fname _

lemma invariant_foldl_processToolCall (loads : String → Option JVal) (t : ToolsCtx)
    (provider : String) (iteration : Nat) :
    ∀ (tcs : List ToolCallReq) (st : LoopSt),
      danglingFreeB st.messages = true → lastCleanB st.messages = true →
      danglingFreeB ((tcs.foldl (processToolCall loads t provider iteration) st).messages) = true ∧
        lastCleanB ((tcs.foldl (processToolCall loads t provider iteration) st).messages) = true := by
  intro tcs
  induction tcs with
  | nil => intro st h1 h2; exact ⟨h1, h2⟩
  | cons tc rest ih =>
      intro st h1 h2
      rw [List.foldl_cons]
      have hstep := invariant_processToolCall loads t provider iteration st tc h1 h2
      exact ih _ hstep.1 hstep.2

lemma askLoop_dangling (loads : String → Option JVal) (t : ToolsCtx) (provider : String)
    (chat : ChatFn) (m : Nat) :
    ∀ (remaining iteration : Nat) (st : LoopSt),
      danglingFreeB st.messages = true →
      lastCleanB st.messages = true →
      st.callLog.all (fun rec => danglingFreeB rec.sentMessages) = true →
      ((askLoop loads t provider chat m iteration remaining st).1.callLog.all
        (fun rec => danglingFreeB rec.sentMessages)) = true := by
  intro remaining
  induction remaining with
  | zero =>
      intro iteration st h1 h2 h3
      have hsent : danglingFreeB (st.messages ++ [finalInstructionMsg]) = true :=
        danglingFreeB_append _ _ h1 h2 rfl
      simp only [askLoop]
      unfold exhaustStep
      cases h : chat st.callLog.length (st.messages ++ [finalInstructionMsg]) none with
      | error e => simp [h, List.all_append, h3, hsent]
      | ok resp => cases hu : resp.usage <;> simp [h, hu, List.all_append, h3, hsent]
  | succ r ih =>
      intro iteration st h1 h2 h3
      simp only [askLoop]
      cases h : chat st.callLog.length st.messages (some get_tool_definitions) with
      | error e => simp [h, List.all_append, h3, h1]
      | ok resp =>
          have hlog1 : (st.callLog ++
              [{ idx := st.callLog.length, sentMessages := st.messages,
                 sentTools := some get_tool_definitions : CallRec }]).all
              (fun rec => danglingFreeB rec.sentMessages) = true := by
            simp [List.all_append, h3, h1]
          cases hu : resp.usage with
          | none =>
              cases htc : (resp.message.getD emptyMsg).tool_calls with
              | none => simp [h, hu, htc, List.all_append, h3, h1]
              | some tcs =>
                  cases tcs with
                  | nil => simp [h, hu, htc, List.all_append, h3, h1]
                  | cons tc rest =>
                      simp only [h, hu, htc]
                      refine ih _ _ ?_ ?_ ?_
                      · exact (invariant_foldl_processToolCall loads t provider iteration
                          (tc :: rest) _ (by exact h1) (by exact h2)).1
                      · exact (invariant_foldl_processToolCall loads t provider iteration
                          (tc :: rest) _ (by exact h1) (by exact h2)).2
                      · rw [foldl_processToolCall_callLog]
                        exact hlog1
          | some u =>
              cases htc : (resp.message.getD emptyMsg).tool_calls with
              | none => simp [h, hu, htc, List.all_append, h3, h1]
              | some tcs =>
                  cases tcs with
                  | nil => simp [h, hu, htc, List.all_append, h3, h1]
                  | cons tc rest =>
                      simp only [h, hu, htc]
                      refine ih _ _ ?_ ?_ ?_
                      · exact (invariant_foldl_processToolCall loads t provider iteration
                          (tc :: rest) _ (by exact h1) (by exact h2)).1
                      · exact (invariant_foldl_processToolCall loads t provider iteration
                          (tc :: rest) _ (by exact h1) (by exact h2)).2
                      · rw [foldl_processToolCall_callLog]
                        exact hlog1

/-- C2: in every transcript handed to the model during an `ask`, each
synthetic assistant tool-call-request message is immediately followed by the
tool-role message carrying its result under the same correlation id — the
model never sees a dangling tool-call request (for any persisted history
whose turns carry no tool-call requests, as the agent itself produces). -/
theorem ask_no_dangling_tool_request (loads : String → Option JVal) (t : ToolsCtx)
    (provider : String) (chat : ChatFn) (sysPrompt : String) (history : List Msg)
    (query : String) (m : Nat) (hh : history.all emptyCallsB = true) :
    ((runAsk loads t provider chat sysPrompt history query m).callLog.all
      (fun rec => danglingFreeB rec.sentMessages)) = true := by
  rw [runAsk_callLog_eq]
  have hall : (textMsg "system" sysPrompt :: (history ++ [textMsg "user" query])).all
      emptyCallsB = true := by
    simp [List.all_append, hh, emptyCallsB_textMsg]
    try exact List.all_eq_true.mp hh
  have hinit := danglingFree_of_all_empty _ hall
  exact askLoop_dangling loads t provider chat m m 0 (initLoopSt sysPrompt history query)
    hinit.1 hinit.2 rfl

/-- C2 witness: the invariant evaluated on the concrete three-iteration
tool-calling scenario. -/
theorem ask_no_dangling_tool_request_witness :
    ((runAsk loadsNone tOK "openai" chatAllTools system_prompt [] "q" 3).callLog.all
      (fun rec => danglingFreeB rec.sentMessages)) = true :=
  ask_no_dangling_tool_request loadsNone tOK "openai" chatAllTools system_prompt [] "q" 3 rfl

/-- The response contains a (Python-truthy) tool-call request list. -/
def respToolishB : Except BackendFault ChatResponse → Bool
  | .ok resp =>
      match (resp.message.getD emptyMsg).tool_calls with
      | some (_ :: _) => true
      | _ => false
  | .error _ => false

lemma runAsk_outcome_eq (loads : String → Option JVal) (t : ToolsCtx) (provider : String)
    (chat : ChatFn) (sysPrompt : String) (history : List Msg) (query : String) (m : Nat) :
    (runAsk loads t provider chat sysPrompt history query m).outcome =
      (askLoop loads t provider chat m 0 m (initLoopSt sysPrompt history query)).2 := by
  unfold runAsk
  cases h : askLoop loads t provider chat m 0 m (initLoopSt sysPrompt history query) with
  | mk st out => cases out <;> simp [h]

lemma exhaustStep_char (chat : ChatFn) (m : Nat) (st : LoopSt) :
    (exhaustStep chat m st).1.callLog = st.callLog ++
      [{ idx := st.callLog.length, sentMessages := st.messages ++ [finalInstructionMsg],
         sentTools := none }] ∧
    (∀ e, chat st.callLog.length (st.messages ++ [finalInstructionMsg]) none = .error e →
      (exhaustStep chat m st).2 = .error e) ∧
    (∀ resp, chat st.callLog.length (st.messages ++ [finalInstructionMsg]) none = .ok resp →
      noteOf (exhaustStep chat m st).2 = some "Reached max iterations" ∧
      answerOf (exhaustStep chat m st).2 = some (contentOrFallback resp) ∧
      isOkB (exhaustStep chat m st).2 = true) := by
  refine ⟨?_, ?_, ?_⟩
  · unfold exhaustStep
    cases h : chat st.callLog.length (st.messages ++ [finalInstructionMsg]) none with
    | error e => simp [h]
    | ok resp => cases hu : resp.usage <;> simp [h, hu]
  · intro e' he'
    simp [exhaustStep, he']
  · intro resp hresp
    cases hu : resp.usage with
    | none =>
        simp [exhaustStep, hresp, hu, noteOf, answerOf, isOkB, contentOrFallback]
        try cases hmsg : resp.message <;> simp [hmsg]
    | some u =>
        simp [exhaustStep, hresp, hu, noteOf, answerOf, isOkB, contentOrFallback]
        try cases hmsg : resp.message <;> simp [hmsg]

lemma askLoop_exhaust_char (loads : String → Option JVal) (t : ToolsCtx) (provider : String)
    (chat : ChatFn) (m : Nat) :
    ∀ (remaining iteration : Nat) (st : LoopSt),
      (∀ i msgs td, st.callLog.length ≤ i → i < st.callLog.length + remaining →
        respToolishB (chat i msgs td) = true) →
      ∃ stf : LoopSt,
        askLoop loads t provider chat m iteration remaining st = exhaustStep chat m stf ∧
        stf.callLog.length = st.callLog.length + remaining := by
  intro remaining
  induction remaining with
  | zero =>
      intro iteration st _
      exact ⟨st, rfl, rfl⟩
  | succ r ih =>
      intro iteration st H
      have hcall : respToolishB (chat st.callLog.length st.messages (some get_tool_definitions)) =
          true := H _ _ _ le_rfl (by omega)
      cases h : chat st.callLog.length st.messages (some get_tool_definitions) with
      | error e => rw [h] at hcall; exact absurd hcall (by simp [respToolishB])
      | ok resp =>
          rw [h] at hcall
          cases htc : (resp.message.getD emptyMsg).tool_calls with
          | none =>exact absurd hcall (by simp [respToolishB, htc])
          | some tcs =>
              cases tcs with
              | nil => exact absurd hcall (by simp [respToolishB, htc])
              | cons tc rest =>
                  cases hu : resp.usage with
                  | none =>
                      have hlen : ((tc :: rest).foldl (processToolCall loads t provider iteration)
                          { st with callLog := st.callLog ++
                              [{ idx := st.callLog.length, sentMessages := st.messages,
                                 sentTools := some get_tool_definitions }] }).callLog.length =
                          st.callLog.length + 1 := by
                        rw [foldl_processToolCall_callLog]
                        simp
                      obtain ⟨stf, heq, hlenf⟩ := ih (iteration + 1) _ (by
                        rw [hlen]
                        intro i msgs td hle hlt
                        exact H i msgs td (by omega) (by omega))
                      refine ⟨stf, ?_, ?_⟩
                      · rw [← heq]
                        simp only [askLoop, h, hu, htc]
                      · rw [hlenf, hlen]
                        omega
                  | some u =>
                      have hlen : ((tc :: rest).foldl (processToolCall loads t provider iteration)
                          { st with
                            usage_log := st.usage_log ++ [{ iter := iteration + 1, usage := u }],
                            callLog := st.callLog ++
                              [{ idx := st.callLog.length, sentMessages := st.messages,
                                 sentTools := some get_tool_definitions }] }).callLog.length =
                          st.callLog.length + 1 := by
                        rw [foldl_processToolCall_callLog]
                        simp
                      obtain ⟨stf, heq, hlenf⟩ := ih (iteration + 1) _ (by
                        rw [hlen]
                        intro i msgs td hle hlt
                        exact H i msgs td (by omega) (by omega))
                      refine ⟨stf, ?_, ?_⟩
                      · rw [← heq]
                        simp only [askLoop, h, hu, htc]
                      · rw [hlenf, hlen]
                        omega

/-- C9: when the model requests tool calls on every loop iteration (so the
counter reaches `max_iterations` without a Done transition), `ask` makes
exactly one extra forced final call with tool-use disabled and the explicit
answer-now instruction as the last transcript entry; its content (or the
static fallback string when the response carries no content) is returned as
the answer, tagged with the exhaustion note. -/
theorem ask_exhaustion_forced_final_call (loads : String → Option JVal) (t : ToolsCtx)
    (provider : String) (chat : ChatFn) (sysPrompt : String) (history : List Msg)
    (query : String) (m : Nat)
    (H : ∀ i msgs td, i < m → respToolishB (chat i msgs td) = true) :
    (runAsk loads t provider chat sysPrompt history query m).callLog.length = m + 1 ∧
    (∀ rec, (runAsk loads t provider chat sysPrompt history query m).callLog.getLast? =
        some rec →
      rec.sentTools = none ∧ rec.idx = m ∧
      rec.sentMessages.getLast? = some finalInstructionMsg ∧
      (∀ e, chat m rec.sentMessages none = .error e →
        (runAsk loads t provider chat sysPrompt history query m).outcome = .error e) ∧
      (∀ resp, chat m rec.sentMessages none = .ok resp →
        noteOf (runAsk loads t provider chat sysPrompt history query m).outcome =
            some "Reached max iterations" ∧
        answerOf (runAsk loads t provider chat sysPrompt history query m).outcome =
            some (contentOrFallback resp) ∧
        isOkB (runAsk loads t provider chat sysPrompt history query m).outcome = true)) := by
  obtain ⟨stf, heq, hlenf⟩ := askLoop_exhaust_char loads t provider chat m m 0
    (initLoopSt sysPrompt history query)
    (by
      intro i msgs td h0 hlt
      refine H i msgs td ?_
      simpa [initLoopSt] using hlt)
  have hlenf' : stf.callLog.length = m := by simpa [initLoopSt] using hlenf
  obtain ⟨hlog, herr, hok⟩ := exhaustStep_char chat m stf
  have hCL : (runAsk loads t provider chat sysPrompt history query m).callLog =
      (exhaustStep chat m stf).1.callLog := by rw [runAsk_callLog_eq, heq]
  have hOC : (runAsk loads t provider chat sysPrompt history query m).outcome =
      (exhaustStep chat m stf).2 := by rw [runAsk_outcome_eq, heq]
  constructor
  · rw [hCL, hlog]
    simp [hlenf']
  · intro rec hrec
    rw [hCL, hlog] at hrec
    rw [List.getLast?_concat] at hrec
    obtain rfl := Option.some.inj hrec
    refine ⟨rfl, hlenf', by simp [List.getLast?_concat], ?_, ?_⟩
    · intro e he
      rw [hOC]
      refine herr e ?_
      rw [hlenf']
      exact he
    · intro resp hresp
      rw [hOC]
      refine hok resp ?_
      rw [hlenf']
      exact hresp

/-- C9 witness: two tool-calling iterations with `max_iterations = 2`, then
a final response with no content: three calls total and the fallback answer
with the exhaustion note. -/
theorem ask_exhaustion_forced_final_call_witness :
    (runAsk loadsNone tOK "openai" chatExh system_prompt [] "q" 2).callLog.length = 2 + 1 ∧
    noteOf (runAsk loadsNone tOK "openai" chatExh system_prompt [] "q" 2).outcome =
      some "Reached max iterations" ∧
    answerOf (runAsk loadsNone tOK "openai" chatExh system_prompt [] "q" 2).outcome =
      some (JVal.str fallbackAnswer) := by
  have h := ask_exhaustion_forced_final_call loadsNone tOK "openai" chatExh system_prompt
    [] "q" 2
    (by
      intro i msgs td hi
      simp only [chatExh, if_pos hi]
      rfl)
  have h2 := h.2 _ rfl
  exact ⟨h.1, (h2.2.2.2.2 _ rfl).1, (h2.2.2.2.2 _ rfl).2.1⟩

/-- The value is a Python `str`. -/
def isStrB : JVal → Bool
  | .str _ => true
  | _ => false

/-- C8: when a tool call is replayed into the transcript, its arguments are
re-encoded per provider: under "openai" the field is always a JSON string
(the original string unchanged, else `json.dumps` of the parsed value);
under "ollama" it is the native parsed value, where a malformed JSON string
becomes the raw-string fallback object. -/
theorem tool_args_reencoded_per_provider (loads : String → Option JVal) (targs : JVal) :
    (∀ s, targs = .str s → argumentsForMessage loads "openai" targs = .str s) ∧
    (isStrB targs = false → argumentsForMessage loads "openai" targs =
        .str (dumps (parseArgsFor loads targs))) ∧
    (argumentsForMessage loads "ollama" targs = parseArgsFor loads targs) ∧
    (∀ s v, targs = .str s → loads s = some v → parseArgsFor loads targs = v) ∧
    (∀ s, targs = .str s → loads s = none →
        parseArgsFor loads targs = .obj [("raw_arguments", .str s)]) ∧
    (isStrB targs = false → parseArgsFor loads targs = targs) := by
  refine ⟨?_, ?_, ?_, ?_, ?_, ?_⟩
  · intro s hs
    subst hs
    simp [argumentsForMessage]
  · intro hn
    cases targs <;> simp_all [argumentsForMessage, isStrB]
  · cases targs <;> simp [argumentsForMessage, parseArgsFor]
  · intro s v hs hv
    subst hs
    simp [parseArgsFor, hv]
  · intro s hs hv
    subst hs
    simp [parseArgsFor, hv]
  · intro hn
    cases targs <;> simp_all [parseArgsFor, isStrB]

/-- C8 witness: a malformed JSON argument string replayed under "ollama"
becomes the raw-string fallback object. -/
theorem tool_args_reencoded_per_provider_witness :
    argumentsForMessage loadsNone "ollama" (JVal.str "notjson") =
      JVal.obj [("raw_arguments", JVal.str "notjson")] := by
  have h := tool_args_reencoded_per_provider loadsNone (JVal.str "notjson")
  rw [h.2.2.1]
  exact h.2.2.2.2.1 "notjson" rfl rfl

/-- The serialized missing-file error payload every tool produces. -/
def missingPayload (path : String) : String :=
  dumps (.obj [("error", .str ("Portfolio data file not found: " ++ path))])

/-- A tools instance whose backing file exists but holds unparseable JSON. -/
def corruptCtx : ToolsCtx :=
  { data_path := "portfolio_data.json",
    file := .corrupt "Expecting value: line 1 column 1 (char 0)" }

/-- C4 counterexample: with a corrupt (unparseable) backing file, the tools
do not return an error payload — the `json.load` fault propagates out of
them (only `_execute_tool`, a different layer, would catch it), refuting
the claim that a Document-load failure of either kind never raises. -/
theorem tools_raise_on_corrupt_file :
    get_profile corruptCtx =
      .error (.jsonDecode "Expecting value: line 1 column 1 (char 0)") ∧
    search_projects corruptCtx (.str "Power BI") (.num 2) =
      .error (.jsonDecode "Expecting value: line 1 column 1 (char 0)") := by
  exact ⟨rfl, rfl⟩

/-- C4 (amended): when the backing file is missing, every catalog tool
returns exactly the serialized error payload and never raises; when the
file is present but corrupt/unparseable, every catalog tool raises the
parse fault to its caller instead of returning a payload. -/
theorem document_load_failure_behavior (path why : String) (kw lim sec : JVal) :
    (get_profile ⟨path, .missing⟩ = .ok (missingPayload path) ∧
     get_contact ⟨path, .missing⟩ = .ok (missingPayload path) ∧
     get_links ⟨path, .missing⟩ = .ok (missingPayload path) ∧
     get_about ⟨path, .missing⟩ = .ok (missingPayload path) ∧
     get_education ⟨path, .missing⟩ = .ok (missingPayload path) ∧
     get_skills ⟨path, .missing⟩ = .ok (missingPayload path) ∧
     get_experience ⟨path, .missing⟩ = .ok (missingPayload path) ∧
     get_projects ⟨path, .missing⟩ = .ok (missingPayload path) ∧
     search_projects ⟨path, .missing⟩ kw lim = .ok (missingPayload path) ∧
     _get_section ⟨path, .missing⟩ sec = .ok (missingPayload path)) ∧
    (get_profile ⟨path, .corrupt why⟩ = .error (.jsonDecode why) ∧
     get_contact ⟨path, .corrupt why⟩ = .error (.jsonDecode why) ∧
     get_links ⟨path, .corrupt why⟩ = .error (.jsonDecode why) ∧
     get_about ⟨path, .corrupt why⟩ = .error (.jsonDecode why) ∧
     get_education ⟨path, .corrupt why⟩ = .error (.jsonDecode why) ∧
     get_skills ⟨path, .corrupt why⟩ = .error (.jsonDecode why) ∧
     get_experience ⟨path, .corrupt why⟩ = .error (.jsonDecode why) ∧
     get_projects ⟨path, .corrupt why⟩ = .error (.jsonDecode why) ∧
     search_projects ⟨path, .corrupt why⟩ kw lim = .error (.jsonDecode why) ∧
     _get_section ⟨path, .corrupt why⟩ sec = .error (.jsonDecode why)) := by
  exact ⟨⟨rfl, rfl, rfl, rfl, rfl, rfl, rfl, rfl, rfl, rfl⟩,
         ⟨rfl, rfl, rfl, rfl, rfl, rfl, rfl, rfl, rfl, rfl⟩⟩

/-- `p.get(key, d)` as a total function on the object values the match loop
reads. -/
def objGetD (p : JVal) (key : String) (d : JVal) : JVal :=
  match p with
  | .obj fs => (fs.lookup key).getD d
  | _ => d

def isObjB : JVal → Bool
  | .obj _ => true
  | _ => false

/-- The haystack test of `search_projects`, total on dict-shaped projects. -/
def projectMatchesT (keyword_lower : String) (p : JVal) : Bool :=
  isSubstr keyword_lower
    (lowerStr (pyStrOf (objGetD p "name" (.str "")) ++ " " ++
      pyStrOf (objGetD p "summary" (.str ""))))

lemma projectMatches_obj (kwl : String) (p : JVal) (h : isObjB p = true) :
    projectMatches kwl p = .ok (projectMatchesT kwl p) := by
  cases p <;>
    simp_all [projectMatches, projectMatchesT, pyDictGet, objGetD, isObjB, bind, Except.bind,
      pure, Except.pure]

lemma collectMatches_eq_filter (kwl : String) :
    ∀ ps : List JVal, ps.all isObjB = true →
      collectMatches kwl ps = .ok (ps.filter (projectMatchesT kwl)) := by
  intro ps
  induction ps with
  | nil => intro _; rfl
  | cons p rest ih =>
      intro h
      rw [List.all_cons, Bool.and_eq_true] at h
      rw [collectMatches]
      rw [projectMatches_obj kwl p h.1, ih h.2]
      cases hb : projectMatchesT kwl p <;>
        simp [hb, List.filter_cons, Except.bind, bind, pure, Except.pure]

lemma sanitize_limit_bounds (lim : JVal) :
    1 ≤ _sanitize_limit lim 10 50 ∧ _sanitize_limit lim 10 50 ≤ 50 := by
  cases lim with
  | null => constructor <;> norm_num [_sanitize_limit]
  | bool b => cases b <;> (constructor <;> norm_num [_sanitize_limit, pyInt])
  | num n =>
      simp only [_sanitize_limit, pyInt]
      by_cases hn : n ≤ 0
      · simp [hn]
      · simp [hn]
        omega
  | str s =>
      simp only [_sanitize_limit, pyInt]
      cases hti : pyStrToInt? s with
      | none => constructor <;> norm_num
      | some k =>
          by_cases hk : k ≤ 0
          · simp [hk]
          · simp [hk]
            omega
  | arr l => constructor <;> norm_num [_sanitize_limit, pyInt]
  | obj l => constructor <;> norm_num [_sanitize_limit, pyInt]

/-- C6: the `limit` of `search_projects` is sanitized then clamped —
`None`, non-numeric, and non-positive limits fall back to 10, any limit is
clamped into `[1, 50]` (so 1000 yields 50) — and the returned list is the
`limit`-prefix of the keyword-filtered projects in original Document order
(a filter of the stored list, never re-sorted). -/
theorem search_projects_sanitize_clamp_order (path : String)
    (fields : List (String × JVal)) (kw : String) (lim : JVal) (ps : List JVal)
    (hne : (fields.any (fun f => f.1 == "error")) = false)
    (hproj : fields.lookup "projects" = some (.arr ps))
    (hobj : ps.all isObjB = true)
    (hkw : kw ≠ "") :
    search_projects ⟨path, .parsed (.obj fields)⟩ (.str kw) lim =
      .ok (dumps (.arr ((ps.filter (projectMatchesT (lowerStr kw))).take
        (_sanitize_limit lim 10 50).toNat))) ∧
    _sanitize_limit .null 10 50 = 10 ∧
    (∀ n : Int, _sanitize_limit (.num n) 10 50 = if n ≤ 0 then 10 else min n 50) ∧
    (∀ s, pyStrToInt? s = none → _sanitize_limit (.str s) 10 50 = 10) ∧
    (∀ l, _sanitize_limit (.arr l) 10 50 = 10) ∧
    (1 ≤ _sanitize_limit lim 10 50 ∧ _sanitize_limit lim 10 50 ≤ 50) ∧
    _sanitize_limit (.num 1000) 10 50 = 50 := by
  have hkwe : kw.isEmpty = false := by
    cases hk : kw.isEmpty
    · rfl
    · exact absurd ((String.isEmpty_iff kw).mp hk) hkw
  refine ⟨?_, rfl, fun n => rfl, ?_, fun l => rfl, sanitize_limit_bounds lim, rfl⟩
  · simp [search_projects, _load_data, pyContains, hne, pyFalsy, hkwe, pyDictGet, hproj,
      pyIterList, collectMatches_eq_filter (lowerStr kw) ps hobj, _dump,
      bind, Except.bind, pure, Except.pure]
  · intro s hs
    simp [_sanitize_limit, pyInt, hs]

/-- C6 witness: searching the sample Document for "Power BI" with limit 2
returns the two matching projects in original order, and concrete limit
sanitization facts. -/
theorem search_projects_sanitize_clamp_order_witness :
    search_projects tOK (.str "Power BI") (.num 2) = .ok (dumps (.arr [
      .obj [("name", .str "Sales Dashboard"), ("summary", .str "Built with Power BI tooling")],
      .obj [("name", .str "KPI Report"), ("summary", .str "Power BI visuals")]])) ∧
    _sanitize_limit (.num 1000) 10 50 = 50 ∧
    _sanitize_limit (.str "abc") 10 50 = 10 ∧
    _sanitize_limit .null 10 50 = 10 ∧
    _sanitize_limit (.num (-3)) 10 50 = 10 := by
  have h := search_projects_sanitize_clamp_order "portfolio_data.json"
    [("profile", .obj [("name", .str "Rakshya Pandey"), ("about", .str "Data scientist.")]),
     ("projects", .arr [
        .obj [("name", .str "Sales Dashboard"), ("summary", .str "Built with Power BI tooling")],
        .obj [("name", .str "Py ETL"), ("summary", .str "Python pipeline")],
        .obj [("name", .str "KPI Report"), ("summary", .str "Power BI visuals")]])]
    "Power BI" (.num 2)
    [.obj [("name", .str "Sales Dashboard"), ("summary", .str "Built with Power BI tooling")],
     .obj [("name", .str "Py ETL"), ("summary", .str "Python pipeline")],
     .obj [("name", .str "KPI Report"), ("summary", .str "Power BI visuals")]]
    rfl rfl rfl (by decide)
  refine ⟨?_, h.2.2.2.2.2.2, h.2.2.2.1 "abc" (by decide), h.2.1, ?_⟩
  · exact h.1.trans (by rfl)
  · rw [h.2.2.1 (-3)]
    norm_num

/-- C7 counterexample: dispatching the non-catalog name `_get_section`
(a private helper, absent from the tool-descriptor catalog) does not yield
the tool-not-found payload — `getattr`-based lookup finds and executes it,
returning the requested section. -/
theorem tool_dispatch_lockstep_counterexample :
    execute_tool loadsNone tOK (some "_get_section") (.obj [("section", .str "profile")]) =
      .str (dumps (.obj [("name", .str "Rakshya Pandey"), ("about", .str "Data scientist.")])) ∧
    ((get_tool_definitions.map (fun td => td.name)).contains "_get_section") = false ∧
    dumps (.obj [("name", .str "Rakshya Pandey"), ("about", .str "Data scientist.")]) ≠
      dumps (.obj [("error", .str "Tool _get_section not found")]) := by
  refine ⟨rfl, rfl, ?_⟩
  simp only [dumps, dumpsAt, dumpsObjItems]
  decide

/-- C7 (amended): every published descriptor name resolves to exactly one
registry method, and a name that is no attribute of the tools object
dispatches to the structured tool-not-found payload (never a crash); but
the dispatchable names are not limited to the catalog — `getattr` also
exposes the class's private helpers (e.g. `_get_section`), so the
descriptor/dispatch correspondence holds in one direction only. -/
theorem tool_dispatch_lockstep_amended (loads : String → Option JVal) (t : ToolsCtx) :
    (get_tool_definitions.all (fun td => (toolsGetattr td.name).isSome)) = true ∧
    (∀ nm args, toolsGetattr nm = none →
      execute_tool loads t (some nm) (.obj args) =
        .str (dumps (.obj [("error", .str ("Tool " ++ nm ++ " not found"))]))) ∧
    toolsGetattr "_get_section" = some ToolsAttr.getSectionM := by
  refine ⟨rfl, ?_, rfl⟩
  intro nm args h
  simp [execute_tool, execute_tool_unwrapped, h, bind, Except.bind, pure, Except.pure]

/-- C7 witness: a name outside the tools object's attributes yields the
tool-not-found payload. -/
theorem tool_dispatch_lockstep_amended_witness :
    execute_tool loadsNone tOK (some "does_not_exist") (.obj []) =
      .str (dumps (.obj [("error", .str "Tool does_not_exist not found")])) :=
  (tool_dispatch_lockstep_amended loadsNone tOK).2.1 "does_not_exist" [] rfl

/-- C5: the auth checker compares the shared-secret header for exact
equality and would reject a mismatch with 401 — but the registered
`/portfolio/ask` route (its secured decorator is commented out in the
source) never invokes it: a request with a wrong or absent header still
reaches the agent, performs a model call, and receives a 200 answer. -/
theorem route_skips_auth_and_calls_model :
    verify_internal_auth (some "wrong") "secret-token" = .error (401, "Unauthorized") ∧
    verify_internal_auth none "secret-token" = .error (401, "Unauthorized") ∧
    verify_internal_auth (some "secret-token") "secret-token" = .ok () ∧
    (ask_agent loadsNone tOK "openai" chatDone system_prompt [] (some "wrong") "secret-token"
        { query := "What projects?", max_iterations := 5, verbose := false }).1.callLog.length
      = 1 ∧
    (ask_agent loadsNone tOK "openai" chatDone system_prompt [] (some "wrong") "secret-token"
        { query := "What projects?", max_iterations := 5, verbose := false }).2
      = ApiResult.okAnswer (.str "hi") := by
  refine ⟨?_, ?_, ?_, rfl, rfl⟩
  · simp [verify_internal_auth]
  · simp [verify_internal_auth]
  · simp [verify_internal_auth]
